import Mathlib

/-
  Shallow embedding of the Frey authentication and RBAC middleware
  (src/packages/frey/src/auth/middleware.ts and src/auth/types.ts).

  JavaScript conventions used throughout the embedding:
  - a possibly-null/undefined object is an Option;
  - an absent string property is modelled as the empty string where the
    source relies on string falsiness (the or-operator on strings);
  - property access on null/undefined throws a TypeError, modelled as
    Except.error on the Unit error type;
  - async functions that can reject are functions into Except Unit.
-/

namespace Frey

/-- JavaScript or-operator on strings: the empty string is falsy. -/
def jsOr (a b : String) : String := if a = "" then b else a

/-- JS String.startsWith, by comparing the leading characters. -/
def jsStartsWith (s p : String) : Bool := (s.take p.length) == p

/-- Turn a JS string property into an optional value: empty means absent. -/
def optOfStr (s : String) : Option String := if s = "" then none else some s

/-- A JavaScript value stored in an entity payload. -/
inductive Value where
  | str (s : String)
  | num (n : Int)
  | bool (b : Bool)
  deriving DecidableEq, Repr

/-- A plain JS object: ordered association list of fields. -/
abbrev JsObject := List (String × Value)

/-- First-match lookup in a string-keyed JS object/record. -/
def lookupStr {α : Type} : List (String × α) → String → Option α
  | [], _ => none
  | (k2, v) :: rest, k => if k2 = k then some v else lookupStr rest k

/-- Property read on a JS object. -/
def jsObjGet (o : JsObject) (k : String) : Option Value := lookupStr o k

/-- JS strict equality between a property value (possibly undefined) and a string. -/
def jsStrictEqStr (v : Option Value) (s : String) : Bool :=
  match v with
  | some (.str t) => t == s
  | _ => false

/-- User identity resolved from a credential (auth/types.ts).  The optional
name field covers the extra property added by the route-auth default JWT
mapping; metadata is opaque and omitted. -/
structure User where
  id : String
  email : String
  name : Option String := none
  role : Option String := none
  permissions : Option (List String) := none
  deriving DecidableEq, Repr

/-- Which credential authenticated the request. -/
inductive AuthMethod where
  | jwt
  | apiKey
  deriving DecidableEq, Repr

/-- Per-request authentication outcome (auth/types.ts AuthContext). -/
structure AuthContext where
  user : Option User := none
  isAuthenticated : Bool
  token : Option String := none
  apiKey : Option String := none
  authMethod : Option AuthMethod := none
  deriving DecidableEq, Repr

/-- The slice of a Fastify request the middleware reads. -/
structure Request where
  headers : List (String × String) := []
  params : Option JsObject := none
  body : Option JsObject := none
  deriving DecidableEq, Repr

/-- Header lookup on a request. -/
def Request.header (req : Request) (name : String) : Option String :=
  lookupStr req.headers name

/-- The context object handed to custom RBAC checks; the middleware builds
it as the record of request, server and auth (server is opaque, omitted). -/
structure Context where
  request : Request
  auth : Option AuthContext := none
  deriving DecidableEq, Repr

/-- Breadth of a permission (auth/types.ts PermissionScope). -/
inductive PermissionScope where
  | All
  | Own
  | Custom
  deriving DecidableEq, Repr

/-- The four CRUD operations checkRbacPermission is called with. -/
inductive Operation where
  | create
  | read
  | update
  | delete
  deriving DecidableEq, Repr

/-- A custom-check predicate: context, entity payload, operation. -/
abbrev CheckFn := Context → Option JsObject → Operation → Except Unit Bool

/-- Object form of a permission entry (auth/types.ts Permission). -/
structure Permission where
  scope : PermissionScope
  customCheck : Option CheckFn := none

/-- An entry of RolePermissions: either a bare scope string or a Permission object. -/
inductive PermissionEntry where
  | scope (s : PermissionScope)
  | perm (p : Permission)

/-- The scope carried by an entry, as read by getRolePermission. -/
def PermissionEntry.scopeOf : PermissionEntry → PermissionScope
  | .scope s => s
  | .perm p => p.scope

/-- Per-role operation permissions (auth/types.ts RolePermissions); an
absent field means no permission declared for that operation. -/
structure RolePermissions where
  create : Option PermissionEntry := none
  read : Option PermissionEntry := none
  update : Option PermissionEntry := none
  delete : Option PermissionEntry := none

/-- Field selection on RolePermissions by operation. -/
def RolePermissions.get (rp : RolePermissions) : Operation → Option PermissionEntry
  | .create => rp.create
  | .read => rp.read
  | .update => rp.update
  | .delete => rp.delete

/-- A caller-supplied role table, as the JS record of role name to permissions. -/
abbrev CustomRoles := List (String × RolePermissions)

/-- Built-in DEFAULT_ROLES of the RBAC module. -/
def DEFAULT_ROLES : List (String × RolePermissions) :=
  [("user",
    { create := some (.scope .Own)
      read := some (.scope .All)
      update := some (.scope .Own)
      delete := some (.scope .Own) }),
   ("admin",
    { create := some (.scope .All)
      read := some (.scope .All)
      update := some (.scope .All)
      delete := some (.scope .All) })]

/-- The scope DEFAULT_ROLES assigns to a role and operation, if any. -/
def defaultRoleScope (role : String) (operation : Operation) : Option PermissionScope :=
  ((lookupStr DEFAULT_ROLES role).bind (fun rp => rp.get operation)).map (·.scopeOf)

/-- getRolePermission: custom roles are consulted first; when the custom
role exists and defines the operation its scope is returned, otherwise
execution falls through to DEFAULT_ROLES. -/
def getRolePermission (role : String) (operation : Operation)
    (customRoles : Option CustomRoles) : Option PermissionScope :=
  match customRoles.bind (fun cr => lookupStr cr role) with
  | some rp =>
    match rp.get operation with
    | some permission => some permission.scopeOf
    | none => defaultRoleScope role operation
  | none => defaultRoleScope role operation

/-- Entity-level per-role operation overrides (auth/types.ts
EntityRbacConfig.operations entry). -/
structure EntityOps where
  findAll : Option PermissionScope := none
  findOne : Option PermissionScope := none
  read : Option PermissionScope := none
  create : Option PermissionScope := none
  update : Option PermissionScope := none
  delete : Option PermissionScope := none
  deriving DecidableEq, Repr

/-- Field selection on EntityOps by the operation checkRbacPermission receives. -/
def EntityOps.get (eo : EntityOps) : Operation → Option PermissionScope
  | .create => eo.create
  | .read => eo.read
  | .update => eo.update
  | .delete => eo.delete

/-- Per-operation custom checks (auth/types.ts EntityRbacConfig.customChecks). -/
structure CustomChecks where
  findAll : Option CheckFn := none
  findOne : Option CheckFn := none
  read : Option CheckFn := none
  create : Option CheckFn := none
  update : Option CheckFn := none
  delete : Option CheckFn := none

/-- Field selection on CustomChecks by operation. -/
def CustomChecks.get (cc : CustomChecks) : Operation → Option CheckFn
  | .create => cc.create
  | .read => cc.read
  | .update => cc.update
  | .delete => cc.delete

/-- Per-entity RBAC configuration (auth/types.ts EntityRbacConfig). -/
structure EntityRbacConfig where
  ownerField : Option String := none
  operations : Option (List (String × EntityOps)) := none
  customChecks : Option CustomChecks := none

/-- The entity-level override scope for a role and operation, if any. -/
def entityOpScope (entityRbacConfig : Option EntityRbacConfig)
    (role : String) (operation : Operation) : Option PermissionScope :=
  (entityRbacConfig.bind (fun c =>
    (c.operations.bind (fun ops => lookupStr ops role)))).bind (fun eo => eo.get operation)

/-- The role checkRbacPermission evaluates: user.role with the falsy
fallback to the literal user role. -/
def userRole (u : User) : String :=
  match u.role with
  | some r => if r = "" then "user" else r
  | none => "user"

/-- The owner field used under Own scope: configured ownerField with the
falsy fallback to id. -/
def resolvedOwnerField (entityRbacConfig : Option EntityRbacConfig) : String :=
  match entityRbacConfig.bind (·.ownerField) with
  | some s => if s = "" then "id" else s
  | none => "id"

/-- The custom check registered for an operation, if any. -/
def customCheckFor (entityRbacConfig : Option EntityRbacConfig)
    (operation : Operation) : Option CheckFn :=
  entityRbacConfig.bind (fun c => c.customChecks.bind (fun cc => cc.get operation))

/-- The permission scope checkRbacPermission settles on: the entity-level
override when present, otherwise the result of getRolePermission. -/
def resolvedScope (entityRbacConfig : Option EntityRbacConfig)
    (customRoles : Option CustomRoles) (role : String) (operation : Operation) :
    Option PermissionScope :=
  match entityOpScope entityRbacConfig role operation with
  | some s => some s
  | none => getRolePermission role operation customRoles

/-- checkRbacPermission.  The Own case reads entityData at the owner field;
when entityData is null that property access throws, modelled as
Except.error. -/
def checkRbacPermission (user : User) (entityName : String) (operation : Operation)
    (entityData : Option JsObject) (context : Context)
    (entityRbacConfig : Option EntityRbacConfig) (customRoles : Option CustomRoles) :
    Except Unit Bool :=
  let role := userRole user
  match resolvedScope entityRbacConfig customRoles role operation with
  | none => .ok false
  | some .All => .ok true
  | some .Own =>
    let ownerField := resolvedOwnerField entityRbacConfig
    match entityData with
    | none => .error ()
    | some obj => .ok (jsStrictEqStr (jsObjGet obj ownerField) user.id)
  | some .Custom =>
    match customCheckFor entityRbacConfig operation with
    | some check => check context entityData operation
    | none => .ok false

/-- Outcome of the RBAC route middleware. -/
inductive RbacOutcome where
  | unauthorized
  | forbidden
  | proceed
  deriving DecidableEq, Repr

/-- The entity payload createRbacMiddleware selects for the permission
check: params, else body, else the empty object for update and delete;
body, else the empty object for create; null for read. -/
def rbacEntityData (operation : Operation) (request : Request) : Option JsObject :=
  match operation with
  | .update | .delete =>
    match request.params with
    | some p => some p
    | none =>
      match request.body with
      | some b => some b
      | none => some []
  | .create =>
    match request.body with
    | some b => some b
    | none => some []
  | .read => none

/-- createRbacMiddleware: 401 unless the request carries an authenticated
auth context with a user, then the permission check decides 403 or next. -/
def createRbacMiddleware (entityName : String) (operation : Operation)
    (entityRbacConfig : Option EntityRbacConfig) (customRoles : Option CustomRoles)
    (request : Request) (auth : Option AuthContext) : Except Unit RbacOutcome :=
  match auth with
  | none => .ok .unauthorized
  | some a =>
    if a.isAuthenticated = false then .ok .unauthorized
    else
      match a.user with
      | none => .ok .unauthorized
      | some u =>
        let entityData := rbacEntityData operation request
        (checkRbacPermission u entityName operation entityData
            { request := request, auth := some a } entityRbacConfig customRoles).map
          (fun ok => if ok then .proceed else .forbidden)

/-- Decoded JWT claims read by the default user mappings.  String claims
use the empty string for an absent property, matching how the source
relies on string falsiness. -/
structure DecodedJwt where
  sub : String := ""
  id : String := ""
  name : String := ""
  username : String := ""
  email : String := ""
  role : String := ""
  permissions : Option (List String) := none
  deriving DecidableEq, Repr

/-- JWT strategy configuration (auth/types.ts JwtConfig); issuer, audience
and expiry live inside the external verifier. -/
structure JwtConfig where
  secret : String
  extractUser : Option (DecodedJwt → Except Unit (Option User)) := none

/-- API-key strategy configuration (auth/types.ts ApiKeyConfig). -/
structure ApiKeyConfig where
  headerName : Option String := none
  validateKey : String → Except Unit (Option User)

/-- Global auth configuration slice used by the route-auth middleware. -/
structure AuthConfig where
  enabled : Option Bool := none
  jwt : Option JwtConfig := none
  apiKey : Option ApiKeyConfig := none

/-- The external jsonwebtoken verify call: token and secret to decoded
claims, throwing on bad signature, malformed token or expiry. -/
abbrev JwtVerify := String → String → Except Unit DecodedJwt

/-- Default user mapping of createJwtMiddleware: sub falling back to id,
email, role and permissions taken from the claims. -/
def jwtHookDefaultUser (d : DecodedJwt) : User :=
  { id := jsOr d.sub d.id
    email := d.email
    role := optOfStr d.role
    permissions := d.permissions }

/-- The try block of createJwtMiddleware: verification or extraction
failures collapse to no user, exactly like a null extraction result. -/
def tryJwtHook (verify : JwtVerify) (config : JwtConfig) (token : String) :
    Option User :=
  match (do
      let decoded ← verify token config.secret
      match config.extractUser with
      | some f => f decoded
      | none => Except.ok (some (jwtHookDefaultUser decoded)) :
      Except Unit (Option User)) with
  | .ok u => u
  | .error _ => none

/-- preHandler of createJwtMiddleware: on a bearer token, verify and
extract a user inside a try block; any failure or a null user leaves the
prior auth state untouched. -/
def jwtHook (verify : JwtVerify) (config : JwtConfig) (request : Request)
    (prior : Option AuthContext) : Option AuthContext :=
  match request.header "authorization" with
  | none => prior
  | some h =>
    if jsStartsWith h "Bearer " then
      match tryJwtHook verify config (h.drop 7) with
      | some u =>
        some { user := some u, isAuthenticated := true, token := some (h.drop 7),
               authMethod := some .jwt }
      | none => prior
    else prior

/-- The header name an API-key configuration designates, with the falsy
fallback to the default header. -/
def apiKeyHeaderName (config : ApiKeyConfig) : String :=
  jsOr (config.headerName.getD "") "x-api-key"

/-- preHandler of createApiKeyMiddleware: on a present key, validate
inside a try block; a thrown validator or a null user leaves the prior
auth state untouched. -/
def apiKeyHook (config : ApiKeyConfig) (request : Request)
    (prior : Option AuthContext) : Option AuthContext :=
  match request.header (apiKeyHeaderName config) with
  | none => prior
  | some k =>
    if k = "" then prior
    else
      match config.validateKey k with
      | .ok (some u) =>
        some { user := some u, isAuthenticated := true, apiKey := some k,
               authMethod := some .apiKey }
      | .ok none => prior
      | .error _ => prior

/-- preHandler of createAuthContextMiddleware: install an unauthenticated
context when none is present. -/
def authContextHook (prior : Option AuthContext) : Option AuthContext :=
  match prior with
  | some a => some a
  | none => some { isAuthenticated := false }

/-- Default user mapping of the inline route-auth JWT resolution; unlike
the hook mapping it also fills name, a default role and empty permissions. -/
def inlineDefaultUser (d : DecodedJwt) : User :=
  { id := jsOr d.sub d.id
    name := some (jsOr d.name (jsOr d.username
      (jsOr (if d.email = "" then "" else ((d.email.splitOn "@").headD "")) "User")))
    email := d.email
    role := some (jsOr d.role "user")
    permissions := some (d.permissions.getD []) }

/-- The try block of the inline JWT resolution: verification or extraction
failures collapse to no user, exactly like a null extraction result. -/
def tryJwtInline (verify : JwtVerify) (config : JwtConfig) (token : String) :
    Option User :=
  match (do
      let decoded ← verify token config.secret
      match config.extractUser with
      | some f => f decoded
      | none => Except.ok (some (inlineDefaultUser decoded)) :
      Except Unit (Option User)) with
  | .ok u => u
  | .error _ => none

/-- The JWT block of the route-auth middleware: replaces the auth context
on a successful bearer resolution, otherwise leaves it unchanged. -/
def jwtStage (verify : JwtVerify) (jwtCfg : Option JwtConfig) (request : Request)
    (auth0 : AuthContext) : AuthContext :=
  match jwtCfg with
  | none => auth0
  | some jcfg =>
    match request.header "authorization" with
    | none => auth0
    | some h =>
      if jsStartsWith h "Bearer " then
        match tryJwtInline verify jcfg (h.drop 7) with
        | some u =>
          { user := some u, isAuthenticated := true, token := some (h.drop 7),
            authMethod := some .jwt }
        | none => auth0
      else auth0

/-- The API-key block of the route-auth middleware: runs only when still
unauthenticated; the validateKey call is not wrapped in a try block, so a
thrown validator propagates. -/
def apiKeyStage (apiKeyCfg : Option ApiKeyConfig) (request : Request)
    (auth1 : AuthContext) : Except Unit AuthContext :=
  if auth1.isAuthenticated = false then
    match apiKeyCfg with
    | none => .ok auth1
    | some acfg =>
      match request.header (apiKeyHeaderName acfg) with
      | none => .ok auth1
      | some k =>
        if k = "" then .ok auth1
        else
          match acfg.validateKey k with
          | .ok (some u) =>
            .ok { user := some u, isAuthenticated := true, apiKey := some k,
                  authMethod := some .apiKey }
          | .ok none => .ok auth1
          | .error e => .error e
  else .ok auth1

/-- The initial auth context of the route-auth middleware: the one already
on the request, or a fresh unauthenticated one. -/
def auth0Of (prior : Option AuthContext) : AuthContext :=
  match prior with
  | some a => a
  | none => { isAuthenticated := false }

/-- The context-building half of createRouteAuthMiddleware: ensure an auth
context, then, when auth is globally enabled and the request is still
unauthenticated, run the JWT block and then the API-key block. -/
def resolveAuth (verify : JwtVerify) (globalAuth : Option AuthConfig)
    (request : Request) (prior : Option AuthContext) : Except Unit AuthContext :=
  match globalAuth with
  | none => .ok (auth0Of prior)
  | some ga =>
    if ga.enabled = some true ∧ (auth0Of prior).isAuthenticated = false then
      apiKeyStage ga.apiKey request (jwtStage verify ga.jwt request (auth0Of prior))
    else .ok (auth0Of prior)

/-- Per-route auth options (auth/types.ts RouteAuthConfig). -/
structure RouteAuthConfig where
  requireAuth : Option Bool := none
  jwtOnly : Option Bool := none
  apiKeyOnly : Option Bool := none
  customAuth : Option (Request → Except Unit Bool) := none

/-- A structured error body sent on rejection. -/
structure ErrorBody where
  error : String
  message : String
  deriving DecidableEq, Repr

/-- Outcome of the route-auth decision phase. -/
inductive RouteDecision where
  | allow
  | reject (status : Nat) (body : ErrorBody)
  deriving DecidableEq, Repr

/-- The decision half of createRouteAuthMiddleware, run on the auth
context left by the resolution half. -/
def routeAuthDecision (config : RouteAuthConfig) (authContext : AuthContext)
    (request : Request) : Except Unit RouteDecision :=
  if config.requireAuth = some false then .ok .allow
  else
    match config.customAuth with
    | some f =>
      (f request).map (fun isValid =>
        if isValid then .allow
        else .reject 401
          { error := "Authentication required",
            message := "Custom authentication failed" })
    | none =>
      if authContext.isAuthenticated = false ∨ authContext.user = none then
        .ok (.reject 401
          { error := "Authentication required",
            message := "No authentication token provided" })
      else if config.jwtOnly = some true ∧ authContext.authMethod ≠ some .jwt then
        .ok (.reject 401
          { error := "Authentication method not allowed",
            message := "This endpoint only accepts JWT authentication" })
      else if config.apiKeyOnly = some true ∧ authContext.authMethod ≠ some .apiKey then
        .ok (.reject 401
          { error := "Authentication method not allowed",
            message := "This endpoint only accepts API key authentication" })
      else .ok .allow

/-- The scope-resolution precedence exactly as the specification words it,
for comparison with the code: the entity-level operations entry if
present, otherwise the global custom-role entry if present, otherwise the
built-in registry entry. -/
def specScopePrecedence (ecfg : Option EntityRbacConfig) (croles : Option CustomRoles)
    (role : String) (operation : Operation) : Option PermissionScope :=
  match entityOpScope ecfg role operation with
  | some s => some s
  | none =>
    match (croles.bind (fun cr => lookupStr cr role)).bind
        (fun rp => (rp.get operation).map (·.scopeOf)) with
    | some s => some s
    | none => defaultRoleScope role operation

/-- The AuthContext invariant of the specification: an authenticated
context carries a user. -/
def authInv (c : AuthContext) : Prop := c.isAuthenticated = true → c.user.isSome

/-- The invariant lifted to the optional auth slot of a request. -/
def priorInv (p : Option AuthContext) : Prop := ∀ c, p = some c → authInv c

/-- Fixture: an empty request. -/
def req0 : Request := {}

/-- Fixture: a custom-check context over the empty request. -/
def ctx0 : Context := { request := req0 }

/-- Fixture: a user with the built-in user role. -/
def userU1 : User := { id := "u1", email := "u1@example.com", role := some "user" }

/-- Fixture: a user whose role exists in no role table. -/
def ghostUser : User := { id := "g1", email := "", role := some "ghost" }

/-- Fixture: a user with a custom moderator role. -/
def userMod : User := { id := "m1", email := "", role := some "moderator" }

/-- Fixture: an authenticated context for userU1. -/
def authU1 : AuthContext := { user := some userU1, isAuthenticated := true }

/-- Fixture: an entity payload owned by u1. -/
def objU1 : JsObject := [("id", .str "u1")]

/-- Fixture: a custom role table that redefines the built-in user role
but only for the read operation. -/
def crsUserReadOnly : CustomRoles := [("user", { read := some (.scope .All) })]

/-- Fixture: a custom role table defining only a moderator read permission. -/
def crsModerator : CustomRoles := [("moderator", { read := some (.scope .All) })]

/-- Fixture: an entity config granting the user role Own-scoped read. -/
def ecfgOwnRead : EntityRbacConfig :=
  { operations := some [("user", { read := some .Own })] }

/-- Fixture: a verifier that always throws. -/
def verifyFail : JwtVerify := fun _ _ => .error ()

/-- Fixture: a verifier that accepts any token with empty claims. -/
def verifyOk : JwtVerify := fun _ _ => .ok {}

/-- Fixture: a JWT strategy with the default user mapping. -/
def jcfgS : JwtConfig := { secret := "s" }

/-- Fixture: a key validator that rejects (throws). -/
def vkErr : String → Except Unit (Option User) := fun _ => .error ()

/-- Fixture: a key validator that resolves userU1. -/
def vkOkU : String → Except Unit (Option User) := fun _ => .ok (some userU1)

/-- Fixture: an API-key strategy whose validator throws. -/
def throwingApiKeyCfg : ApiKeyConfig := { validateKey := vkErr }

/-- Fixture: global auth enabled with only the throwing API-key strategy. -/
def gaThrow : AuthConfig := { enabled := some true, apiKey := some throwingApiKeyCfg }

/-- Fixture: a request carrying an API key in the default header. -/
def reqWithKey : Request := { headers := [("x-api-key", "k1")] }

/-- Fixture: a request carrying a bearer token. -/
def reqBearer : Request := { headers := [("authorization", "Bearer t")] }

/-- Fixture: a request carrying entity params owned by u1. -/
def reqParams : Request := { params := some objU1 }

/-- JS strict equality against a string holds exactly on that string value. -/
theorem jsStrictEqStr_iff (v : Option Value) (s : String) :
    jsStrictEqStr v s = true ↔ v = some (.str s) := by
  cases v with
  | none => simp [jsStrictEqStr]
  | some w =>
    cases w with
    | str t => simp [jsStrictEqStr]
    | num n => simp [jsStrictEqStr]
    | bool b => simp [jsStrictEqStr]

/-- C1: checkRbacPermission resolves the permission scope by precedence
entity-level operations entry, else global custom role entry, else
built-in registry entry, and denies when none of the three defines a
scope. -/
theorem rbac_scope_precedence
    (u : User) (entityName : String) (operation : Operation)
    (entityData : Option JsObject) (context : Context)
    (ecfg : Option EntityRbacConfig) (croles : Option CustomRoles) :
    resolvedScope ecfg croles (userRole u) operation
      = specScopePrecedence ecfg croles (userRole u) operation
    ∧ (resolvedScope ecfg croles (userRole u) operation = none →
        checkRbacPermission u entityName operation entityData context ecfg croles
          = .ok false) := by
  constructor
  · unfold resolvedScope specScopePrecedence
    cases hE : entityOpScope ecfg (userRole u) operation with
    | some s => rfl
    | none =>
      unfold getRolePermission
      cases hC : croles.bind (fun cr => lookupStr cr (userRole u)) with
      | none => rfl
      | some rp =>
        cases hO : rp.get operation with
        | none => simp [hO]
        | some p => simp [hO]
  · intro h
    unfold checkRbacPermission
    simp only [h]

/-- Witness for C1 at a role defined nowhere: permission is denied. -/
theorem rbac_scope_precedence_witness :
    checkRbacPermission ghostUser "entity" Operation.read none ctx0 none none
      = .ok false :=
  (rbac_scope_precedence ghostUser "entity" Operation.read none ctx0 none none).2 rfl

/-- C2: under a resolved Own scope with an object payload, the permission
is granted exactly when the payload owner field strictly equals the user
id, the owner field being the configured one with fallback id. -/
theorem rbac_own_scope_ownership
    (u : User) (entityName : String) (operation : Operation) (obj : JsObject)
    (context : Context) (ecfg : Option EntityRbacConfig) (croles : Option CustomRoles)
    (hOwn : resolvedScope ecfg croles (userRole u) operation = some .Own) :
    checkRbacPermission u entityName operation (some obj) context ecfg croles = .ok true
      ↔ jsObjGet obj (resolvedOwnerField ecfg) = some (.str u.id) := by
  unfold checkRbacPermission
  simp only [hOwn]
  rw [← jsStrictEqStr_iff]
  constructor
  · intro h
    injection h
  · intro h
    rw [h]

/-- Witness for C2: the built-in user role updating its own entity. -/
theorem rbac_own_scope_ownership_witness :
    checkRbacPermission userU1 "entity" Operation.update (some objU1) ctx0 none none
      = .ok true :=
  (rbac_own_scope_ownership userU1 "entity" Operation.update objU1 ctx0 none none
    rfl).mpr rfl

/-- C3 (failing input): under Own scope a null entity payload makes
checkRbacPermission throw a TypeError rather than deny; the RBAC
middleware passes exactly such a null payload for read operations. -/
theorem rbac_null_payload_own_throws :
    checkRbacPermission userU1 "document" Operation.read none ctx0
        (some ecfgOwnRead) none = .error ()
    ∧ createRbacMiddleware "document" Operation.read (some ecfgOwnRead) none req0
        (some authU1) = .error () := by
  exact ⟨rfl, rfl⟩

/-- C5 (counterexample): with the user role redefined as a custom role
that omits update, getRolePermission does not yield no scope but falls
back to the built-in Own, and the evaluator allows an owned update
instead of denying. -/
theorem custom_role_omitted_op_fallback_cex :
    getRolePermission "user" Operation.update (some crsUserReadOnly)
      = some PermissionScope.Own
    ∧ checkRbacPermission userU1 "entity" Operation.update (some objU1) ctx0 none
        (some crsUserReadOnly) = .ok true := by
  exact ⟨rfl, rfl⟩

/-- C5 (amended): a custom role definition takes precedence over a
colliding built-in role for the operations it defines; an operation it
omits falls back to the built-in scope for that role, and only when the
built-in registry also omits it does getRolePermission yield no scope, in
which case, absent an entity-level override, the evaluator denies. -/
theorem custom_role_precedence_with_fallback
    (croles : CustomRoles) (role : String) (operation : Operation)
    (rp : RolePermissions) (hrole : lookupStr croles role = some rp) :
    (∀ p, rp.get operation = some p →
        getRolePermission role operation (some croles) = some p.scopeOf)
    ∧ (rp.get operation = none →
        getRolePermission role operation (some croles)
          = defaultRoleScope role operation)
    ∧ (rp.get operation = none → defaultRoleScope role operation = none →
        ∀ (u : User) (entityName : String) (entityData : Option JsObject)
          (context : Context), userRole u = role →
          checkRbacPermission u entityName operation entityData context none
            (some croles) = .ok false) := by
  refine ⟨?_, ?_, ?_⟩
  · intro p hp
    unfold getRolePermission
    simp [hrole, hp]
  · intro hp
    unfold getRolePermission
    simp [hrole, hp]
  · intro hp hd u entityName entityData context hu
    have hscope : resolvedScope none (some croles) (userRole u) operation = none := by
      unfold resolvedScope entityOpScope getRolePermission
      simp [hu, hrole, hp, hd]
    unfold checkRbacPermission
    simp only [hscope]

/-- Witness for the amended C5: the moderator custom role wins where it
defines read, and denies update, which neither it nor the registry
defines. -/
theorem custom_role_precedence_with_fallback_witness :
    getRolePermission "moderator" Operation.read (some crsModerator)
      = some PermissionScope.All
    ∧ checkRbacPermission userMod "entity" Operation.update none ctx0 none
        (some crsModerator) = .ok false := by
  constructor
  · exact (custom_role_precedence_with_fallback crsModerator "moderator"
      Operation.read _ rfl).1 _ rfl
  · exact (custom_role_precedence_with_fallback crsModerator "moderator"
      Operation.update _ rfl).2.2 rfl rfl userMod "entity" none ctx0 rfl

/-- C9: for update and delete the RBAC middleware decides from the payload
params-else-body-else-empty taken from the request, and for read from a
null payload, in each case by the permission check on that payload. -/
theorem rbac_entity_payload_from_request
    (entityName : String) (ecfg : Option EntityRbacConfig) (croles : Option CustomRoles)
    (req : Request) (a : AuthContext) (u : User)
    (hauth : a.isAuthenticated = true) (huser : a.user = some u) :
    (∀ operation, operation = Operation.update ∨ operation = Operation.delete →
      createRbacMiddleware entityName operation ecfg croles req (some a)
        = (checkRbacPermission u entityName operation
            (some (match req.params with
                   | some p => p
                   | none =>
                     match req.body with
                     | some b => b
                     | none => []))
            { request := req, auth := some a } ecfg croles).map
          (fun ok => if ok then RbacOutcome.proceed else RbacOutcome.forbidden))
    ∧ (createRbacMiddleware entityName Operation.read ecfg croles req (some a)
        = (checkRbacPermission u entityName Operation.read none
            { request := req, auth := some a } ecfg croles).map
          (fun ok => if ok then RbacOutcome.proceed else RbacOutcome.forbidden)) := by
  constructor
  · rintro operation (rfl | rfl) <;>
    · unfold createRbacMiddleware
      simp only [hauth, huser]
      cases hp : req.params with
      | some p => simp [rbacEntityData, hp]
      | none =>
        cases hb : req.body with
        | some b => simp [rbacEntityData, hp, hb]
        | none => simp [rbacEntityData, hp, hb]
  · unfold createRbacMiddleware
    simp [hauth, huser, rbacEntityData]

/-- Witness for C9 at an update whose params carry the entity. -/
theorem rbac_entity_payload_from_request_witness :
    createRbacMiddleware "entity" Operation.update none none reqParams (some authU1)
      = (checkRbacPermission userU1 "entity" Operation.update (some objU1)
          { request := reqParams, auth := some authU1 } none none).map
        (fun ok => if ok then RbacOutcome.proceed else RbacOutcome.forbidden) :=
  (rbac_entity_payload_from_request "entity" none none reqParams authU1 userU1
    rfl rfl).1 Operation.update (Or.inl rfl)

/-- The JWT block either leaves the auth context unchanged or installs a
fresh JWT-authenticated context. -/
theorem jwtStage_result (verify : JwtVerify) (jc : Option JwtConfig)
    (req : Request) (a0 : AuthContext) :
    jwtStage verify jc req a0 = a0
    ∨ ∃ u t, jwtStage verify jc req a0 =
        { user := some u, isAuthenticated := true, token := some t,
          apiKey := none, authMethod := some .jwt } := by
  unfold jwtStage
  split
  · exact Or.inl rfl
  · split
    · exact Or.inl rfl
    · split
      · split
        · exact Or.inr ⟨_, _, rfl⟩
        · exact Or.inl rfl
      · exact Or.inl rfl

/-- The JWT block installs a fresh JWT context when a bearer token is
present and its inline resolution yields a user. -/
theorem jwtStage_success (verify : JwtVerify) (jcfg : JwtConfig) (req : Request)
    (a0 : AuthContext) (h : String) (u : User)
    (hh : req.header "authorization" = some h)
    (hb : jsStartsWith h "Bearer " = true)
    (hu : tryJwtInline verify jcfg (h.drop 7) = some u) :
    jwtStage verify (some jcfg) req a0 =
      { user := some u, isAuthenticated := true, token := some (h.drop 7),
        authMethod := some .jwt } := by
  unfold jwtStage
  rw [hh]
  simp [hb, hu]

/-- The API-key block, when it does not throw, either keeps the incoming
context or installs a fresh API-key-authenticated context. -/
theorem apiKeyStage_result (ac : Option ApiKeyConfig) (req : Request)
    (a1 ctx : AuthContext) (h : apiKeyStage ac req a1 = .ok ctx) :
    ctx = a1
    ∨ ∃ u k, ctx =
        { user := some u, isAuthenticated := true, token := none,
          apiKey := some k, authMethod := some .apiKey } := by
  unfold apiKeyStage at h
  split at h
  · split at h
    · injection h with h
      exact Or.inl h.symm
    · split at h
      · injection h with h
        exact Or.inl h.symm
      · split at h
        · injection h with h
          exact Or.inl h.symm
        · split at h
          · injection h with h
            exact Or.inr ⟨_, _, h.symm⟩
          · injection h with h
            exact Or.inl h.symm
          · exact Except.noConfusion h
  · injection h with h
    exact Or.inl h.symm

/-- The API-key block is skipped on an already-authenticated context. -/
theorem apiKeyStage_skip (ac : Option ApiKeyConfig) (req : Request)
    (a1 : AuthContext) (h : a1.isAuthenticated = true) :
    apiKeyStage ac req a1 = .ok a1 := by
  unfold apiKeyStage
  simp [h]

/-- C4 (failing input): a throwing key validator propagates out of the
route-auth context resolution instead of leaving the request
unauthenticated, although the dedicated API-key middleware hook does
swallow the same error. -/
theorem route_auth_validator_error_propagates :
    resolveAuth verifyFail (some gaThrow) reqWithKey none = .error ()
    ∧ apiKeyHook throwingApiKeyCfg reqWithKey none = none := by
  exact ⟨rfl, rfl⟩

/-- C6: the route-auth context resolution never produces a context
carrying both a bearer token and an API key, and when the JWT branch
resolves a user the outcome does not depend on the key validator, the
API-key branch being short-circuited. -/
theorem auth_resolution_jwt_short_circuit :
    (∀ (verify : JwtVerify) (ga : Option AuthConfig) (req : Request)
       (prior : Option AuthContext) (ctx : AuthContext),
       (∀ p, prior = some p → ¬(p.token.isSome ∧ p.apiKey.isSome)) →
       resolveAuth verify ga req prior = .ok ctx →
       ¬(ctx.token.isSome ∧ ctx.apiKey.isSome))
    ∧ (∀ (verify : JwtVerify) (enabled : Option Bool) (jcfg : JwtConfig)
       (hdr : Option String) (vk vk2 : String → Except Unit (Option User))
       (req : Request) (prior : Option AuthContext) (h : String),
       req.header "authorization" = some h →
       jsStartsWith h "Bearer " = true →
       tryJwtInline verify jcfg (h.drop 7) ≠ none →
       resolveAuth verify (some ⟨enabled, some jcfg, some ⟨hdr, vk⟩⟩) req prior
         = resolveAuth verify (some ⟨enabled, some jcfg, some ⟨hdr, vk2⟩⟩) req prior) := by
  constructor
  · intro verify ga req prior ctx hprior hres
    have hA0 : ¬((auth0Of prior).token.isSome ∧ (auth0Of prior).apiKey.isSome) := by
      cases prior with
      | none => simp [auth0Of]
      | some p => exact hprior p rfl
    unfold resolveAuth at hres
    split at hres
    · injection hres with hres
      rw [← hres]
      exact hA0
    · split at hres
      · rcases apiKeyStage_result _ _ _ _ hres with h1 | ⟨u, k, h1⟩
        · rcases jwtStage_result verify _ req (auth0Of prior)
            with h2 | ⟨u, t, h2⟩
          · rw [h1, h2]
            exact hA0
          · rw [h1, h2]
            simp
        · rw [h1]
          simp
      · injection hres with hres
        rw [← hres]
        exact hA0
  · intro verify enabled jcfg hdr vk vk2 req prior h hh hb ht
    rcases Option.ne_none_iff_exists.mp ht with ⟨u, hu⟩
    have hjs := jwtStage_success verify jcfg req (auth0Of prior) h u hh hb hu.symm
    unfold resolveAuth
    dsimp only
    by_cases hc : (enabled = some true ∧ (auth0Of prior).isAuthenticated = false)
    · rw [if_pos hc, if_pos hc, hjs,
        apiKeyStage_skip _ _ _ rfl, apiKeyStage_skip _ _ _ rfl]
    · rw [if_neg hc, if_neg hc]

/-- Witness for C6: the no-dual-credential conclusion on the trivial
request, and the validator-independence conclusion on a bearer request
with opposite validators. -/
theorem auth_resolution_jwt_short_circuit_witness :
    ¬((({ isAuthenticated := false } : AuthContext)).token.isSome
       ∧ (({ isAuthenticated := false } : AuthContext)).apiKey.isSome)
    ∧ resolveAuth verifyOk
        (some ⟨some true, some jcfgS, some ⟨none, vkErr⟩⟩) reqBearer none
      = resolveAuth verifyOk
        (some ⟨some true, some jcfgS, some ⟨none, vkOkU⟩⟩) reqBearer none := by
  constructor
  · exact (auth_resolution_jwt_short_circuit).1 verifyFail none req0 none _
      (fun p hp => nomatch hp) rfl
  · exact (auth_resolution_jwt_short_circuit).2 verifyOk (some true) jcfgS none
      vkErr vkOkU reqBearer none "Bearer t" rfl rfl (by
        rw [show tryJwtInline verifyOk jcfgS (("Bearer t").drop 7)
              = some (inlineDefaultUser {}) from rfl]
        simp)

/-- C7: when customAuth is configured and requireAuth is not false, the
route guard decides solely by the predicate: allow on true, else a 401
with the custom-authentication-failed body, regardless of the auth
context and of the jwtOnly and apiKeyOnly flags. -/
theorem custom_auth_replaces_other_checks
    (ra jo ao : Option Bool) (f : Request → Except Unit Bool)
    (ctx : AuthContext) (req : Request) (b : Bool)
    (hra : ra ≠ some false) (hf : f req = .ok b) :
    routeAuthDecision
        { requireAuth := ra, jwtOnly := jo, apiKeyOnly := ao, customAuth := some f }
        ctx req
      = .ok (if b then RouteDecision.allow
             else RouteDecision.reject 401
               { error := "Authentication required",
                 message := "Custom authentication failed" }) := by
  unfold routeAuthDecision
  simp [hra, hf, Except.map]

/-- Witness for C7: a failing predicate rejects 401 even though jwtOnly
and apiKeyOnly are set and the caller is unauthenticated. -/
theorem custom_auth_replaces_other_checks_witness :
    routeAuthDecision
        { requireAuth := none, jwtOnly := some true, apiKeyOnly := some true,
          customAuth := some (fun _ => .ok false) }
        { isAuthenticated := false } req0
      = .ok (RouteDecision.reject 401
          { error := "Authentication required",
            message := "Custom authentication failed" }) := by
  have := custom_auth_replaces_other_checks none (some true) (some true)
    (fun _ => .ok false) { isAuthenticated := false } req0 false (by simp) rfl
  simpa using this

/-- C8: every auth context constructed by the JWT hook, the API-key hook,
the context-injection hook or the route-auth inline resolution satisfies
the invariant that an authenticated context carries a user. -/
theorem auth_contexts_satisfy_user_invariant
    (verify : JwtVerify) (jc : JwtConfig) (ac : ApiKeyConfig)
    (ga : Option AuthConfig) (req : Request) (prior : Option AuthContext)
    (hprior : priorInv prior) :
    priorInv (jwtHook verify jc req prior)
    ∧ priorInv (apiKeyHook ac req prior)
    ∧ priorInv (authContextHook prior)
    ∧ (∀ ctx, resolveAuth verify ga req prior = .ok ctx → authInv ctx) := by
  refine ⟨?_, ?_, ?_, ?_⟩
  · intro c hc
    unfold jwtHook at hc
    split at hc
    · exact hprior c hc
    · split at hc
      · split at hc
        · injection hc with hc
          rw [← hc]
          intro _
          rfl
        · exact hprior c hc
      · exact hprior c hc
  · intro c hc
    unfold apiKeyHook at hc
    split at hc
    · exact hprior c hc
    · split at hc
      · exact hprior c hc
      · split at hc
        · injection hc with hc
          rw [← hc]
          intro _
          rfl
        · exact hprior c hc
        · exact hprior c hc
  · intro c hc
    unfold authContextHook at hc
    cases prior with
    | none =>
      injection hc with hc
      rw [← hc]
      intro hfalse
      cases hfalse
    | some p =>
      exact hprior c hc
  · intro ctx hres
    have hA0 : authInv (auth0Of prior) := by
      cases prior with
      | none =>
        intro hfalse
        cases hfalse
      | some p => exact hprior p rfl
    unfold resolveAuth at hres
    split at hres
    · injection hres with hres
      rw [← hres]
      exact hA0
    · split at hres
      · rcases apiKeyStage_result _ _ _ _ hres with h1 | ⟨u, k, h1⟩
        · rcases jwtStage_result verify _ req (auth0Of prior)
            with h2 | ⟨u, t, h2⟩
          · rw [h1, h2]
            exact hA0
          · rw [h1, h2]
            intro _
            rfl
        · rw [h1]
          intro _
          rfl
      · injection hres with hres
        rw [← hres]
        exact hA0

/-- Witness for C8: the injected unauthenticated context satisfies the
invariant. -/
theorem auth_contexts_satisfy_user_invariant_witness :
    authInv { isAuthenticated := false } :=
  ((auth_contexts_satisfy_user_invariant verifyFail jcfgS throwingApiKeyCfg
      none req0 none (fun c hc => nomatch hc)).2.2.1) { isAuthenticated := false } rfl

/-- C10: the permission decision of checkRbacPermission does not depend on
the entity type name. -/
theorem rbac_decision_ignores_entity_name
    (u : User) (n1 n2 : String) (operation : Operation)
    (entityData : Option JsObject) (context : Context)
    (ecfg : Option EntityRbacConfig) (croles : Option CustomRoles) :
    checkRbacPermission u n1 operation entityData context ecfg croles
      = checkRbacPermission u n2 operation entityData context ecfg croles := rfl

end Frey
